import Mathlib

/-!
Verification of the NucloGem script (`src/code.py`), a Nuclei + Gemini
scanner and reporter. The script is embedded shallowly: every external
effect (subprocess execution, file read, the Gemini API call, the bytes
pandoc writes) is supplied by an `Env` oracle, the file system is a map
from paths to file contents, printed lines are accumulated in order, and
the `__main__` block becomes the function `script_main` returning the
process exit code together with the final file system, the printed
output, and call counters for the Gemini model, the scan subprocess and
the pandoc subprocess.
-/

namespace NucloGem

/-! ### Configuration constants (code.py lines 13-17) -/

def NUCLEI_PATH : String := "nuclei"

/-- `os.path.expanduser("~/nuclei-templates")`; the `~` is kept unexpanded
since no claim depends on the home directory. -/
def TEMPLATES_DIR : String := "~/nuclei-templates"

def OUTPUT_DIR : String := "nuclei_scans"

def GEMINI_API_KEY : String := "gemini_api_key_here"

/-- `os.path.expanduser("~/Desktop/gemini_report")`, `~` kept unexpanded. -/
def REPORT_PATH : String := "~/Desktop/gemini_report"

/-! ### Python string membership (`"Error" in report_md`) -/

/-- Does `needle` occur as a contiguous run inside `hay`?  Recursion over
the haystack, checking a prefix match at every position — the semantics of
Python's `in` operator on strings. -/
def strContainsAux (needle : List Char) : List Char → Bool
  | [] => needle.isPrefixOf []
  | c :: cs => needle.isPrefixOf (c :: cs) || strContainsAux needle cs

/-- Python's `sub in s` substring test. -/
def pyIn (sub s : String) : Bool := strContainsAux sub.toList s.toList

/-- Python's `s.startswith(pre)`; used to state that the error strings the
script builds begin with `"Error"`. -/
def pyStartsWith (s pre : String) : Bool := pre.toList.isPrefixOf s.toList

/-- The characters Python's `str.strip()` removes. -/
def isPyWhitespace (c : Char) : Bool :=
  c = ' ' || c = '\t' || c = '\n' || c = '\r' || c = '\x0b' || c = '\x0c'

/-- Python's `s.strip()`: drop whitespace from both ends. -/
def pyStrip (s : String) : String :=
  ⟨((s.data.dropWhile isPyWhitespace).reverse.dropWhile isPyWhitespace).reverse⟩

/-! ### Subprocess invocations -/

/-- One `subprocess.run` invocation: the argument vector, the `timeout`
keyword (Python's default is `None`, i.e. wait forever), and the `check`
keyword. Stdout/stderr redirection is not modelled. -/
structure SubprocessCall where
  argv : List String
  timeout : Option Nat
  check : Bool
deriving DecidableEq, Repr

/-- `subprocess.run([NUCLEI_PATH, "-version"], ..., check=True)`
(code.py lines 28-29). No `timeout` keyword is passed. -/
def version_call : SubprocessCall :=
  { argv := [NUCLEI_PATH, "-version"], timeout := none, check := true }

/-- The scan command vector built at code.py lines 48-54. -/
def scan_cmd (target output_file : String) : List String :=
  [NUCLEI_PATH, "-u", target, "-t", TEMPLATES_DIR, "-silent", "-o", output_file]

/-- `subprocess.run(cmd, check=True)` (code.py line 58): no `timeout`
keyword is passed, so the call waits on the scanner indefinitely. -/
def scan_call (target output_file : String) : SubprocessCall :=
  { argv := scan_cmd target output_file, timeout := none, check := true }

/-- `subprocess.run(["pandoc", md_path, "-o", pdf_path], check=True)`
(code.py line 101). -/
def pandoc_call (md_path pdf_path : String) : SubprocessCall :=
  { argv := ["pandoc", md_path, "-o", pdf_path], timeout := none, check := true }

/-! ### File system and environment oracle -/

/-- A file system: path to file contents, `none` when the file is absent. -/
def FS : Type := String → Option String

def FS.write (fs : FS) (path content : String) : FS :=
  fun q => if q = path then some content else fs q

/-- `os.remove`. -/
def FS.remove (fs : FS) (path : String) : FS :=
  fun q => if q = path then none else fs q

def emptyFS : FS := fun _ => none

/-- Outcomes of the external world. `runSubprocess` returns `.error msg`
when the `subprocess.run` call raises (`CalledProcessError` on a non-zero
exit under `check=True`, or the binary is missing); `readFile` is the
result of `open(path).read()`; `gemini` is `model.generate_content` on a
prompt, `.error msg` when it raises; `render` gives the PDF bytes pandoc
writes when it succeeds. -/
structure Env where
  runSubprocess : SubprocessCall → Except String Unit
  templatesExist : Bool
  readFile : String → Except String String
  gemini : String → Except String String
  render : String → String

/-- Did an `Except`-returning call succeed? -/
def isOkB {α : Type} : Except String α → Bool
  | .ok _ => true
  | .error _ => false

/-! ### verify_setup (code.py lines 24-41) -/

/-- Result of `verify_setup`: `exitWith = some c` models `exit(c)`;
`none` means control continues past the check. -/
structure SetupResult where
  exitWith : Option Nat
  printed : List String
deriving Repr

/-- Embedding of `verify_setup` (code.py lines 24-41). The bare `except:`
catches any exception from `subprocess.run`, so a missing binary and a
non-zero `-version` exit land in the same `exit(1)` branch; a missing
template directory is the second `exit(1)`; `os.makedirs` only touches a
directory and is not modelled on the file map. -/
def verify_setup (env : Env) : SetupResult :=
  let p0 := ["📦 Verifying Nuclei and template setup..."]
  match env.runSubprocess version_call with
  | .error _ =>
    { exitWith := some 1
      printed := p0 ++
        ["❌ Nuclei not found. Install with:",
         "go install -v github.com/projectdiscovery/nuclei/v2/cmd/nuclei@latest"] }
  | .ok _ =>
    if env.templatesExist then
      { exitWith := none, printed := p0 ++ ["✅ Setup verified.\n"] }
    else
      { exitWith := some 1
        printed := p0 ++
          ["❌ Templates not found at " ++ TEMPLATES_DIR,
           "Update templates using: nuclei -update-templates"] }

/-! ### run_nuclei_scan (code.py lines 43-63) -/

/-- `os.path.join(OUTPUT_DIR, f"scan_[timestamp].json")` (code.py line 46),
with the timestamp a parameter in place of `datetime.now()`. -/
def scan_output_file (timestamp : String) : String :=
  OUTPUT_DIR ++ "/scan_" ++ timestamp ++ ".json"

/-- Result of `run_nuclei_scan`: `outputFile = none` models the
`except subprocess.CalledProcessError: ... exit(1)` branch; `attempts`
counts the `subprocess.run` invocations made (always exactly one — the
function has no retry loop). -/
structure ScanResult where
  outputFile : Option String
  printed : List String
  attempts : Nat
deriving Repr

/-- Embedding of `run_nuclei_scan` (code.py lines 43-63). One
`subprocess.run(cmd, check=True)` call; success returns the output path,
a `CalledProcessError` prints a message and calls `exit(1)`. -/
def run_nuclei_scan (env : Env) (target timestamp : String) : ScanResult :=
  let output_file := scan_output_file timestamp
  let p0 := ["🚀 Running Nuclei scan on " ++ target ++ " using all templates..."]
  match env.runSubprocess (scan_call target output_file) with
  | .ok _ =>
    { outputFile := some output_file
      printed := p0 ++ ["✅ Scan completed. Results saved to " ++ output_file ++ "\n"]
      attempts := 1 }
  | .error _ =>
    { outputFile := none
      printed := p0 ++ ["❌ Scan failed. Check internet or target URL format (http:// or https://)"]
      attempts := 1 }

/-! ### generate_report_from_file (code.py lines 65-88) -/

/-- The f-string prompt of code.py lines 74-81, with the file contents
interpolated in the middle. -/
def prompt_for (content : String) : String :=
  "\n    Analyze the following Nuclei scan output and generate a detailed, structured security report in Markdown format.\n    Highlight critical and high-severity issues. Use proper headings and bullet points.\n\n    --- Begin Scan Data ---\n    "
  ++ content ++
  "\n    --- End Scan Data ---\n    "

/-- Result of `generate_report_from_file`: the returned string, how many
times `model.generate_content` was called, and the lines printed. -/
structure GenResult where
  report : String
  geminiCalls : Nat
  printed : List String
deriving Repr

/-- Embedding of `generate_report_from_file` (code.py lines 65-88). A
failed read returns `"Error reading file: " ++ e` with zero model calls;
otherwise `model.generate_content` is called exactly once on the prompt —
unconditionally, whatever the file contents — and a raised exception
becomes `"Error communicating with Gemini: " ++ e`. Every branch returns
a string: the function never propagates an exception. `pyStrip` models
the `.strip()` applied to `response.text`. -/
def generate_report_from_file (env : Env) (file_path : String) : GenResult :=
  let p0 := ["🤖 Sending results to Gemini for analysis..."]
  match env.readFile file_path with
  | .error e => { report := "Error reading file: " ++ e, geminiCalls := 0, printed := p0 }
  | .ok content =>
    match env.gemini (prompt_for content) with
    | .ok text =>
      { report := pyStrip text
        geminiCalls := 1
        printed := p0 ++ ["✅ Gemini analysis complete.\n"] }
    | .error e =>
      { report := "Error communicating with Gemini: " ++ e, geminiCalls := 1, printed := p0 }

/-! ### save_report_to_pdf (code.py lines 90-105) -/

/-- Result of `save_report_to_pdf`: the file system afterwards, the lines
printed, and how many pandoc invocations were made. -/
structure SaveResult where
  fs : FS
  printed : List String
  pandocCalls : Nat

/-- Embedding of `save_report_to_pdf` (code.py lines 90-105). The
Markdown file is written first; on pandoc success the PDF appears (bytes
from `env.render`) and `os.remove(md_path)` deletes the Markdown; on
`CalledProcessError` the Markdown is left in place and the error is
printed, not re-raised. -/
def save_report_to_pdf (env : Env) (markdown_text base_path : String) (fs : FS) : SaveResult :=
  let md_path := base_path ++ ".md"
  let pdf_path := base_path ++ ".pdf"
  let fs1 := FS.write fs md_path markdown_text
  let p0 := ["📝 Saving Markdown report...", "📄 Converting Markdown to PDF..."]
  match env.runSubprocess (pandoc_call md_path pdf_path) with
  | .ok _ =>
    { fs := FS.remove (FS.write fs1 pdf_path (env.render markdown_text)) md_path
      printed := p0 ++ ["✅ PDF report saved at: " ++ pdf_path]
      pandocCalls := 1 }
  | .error e =>
    { fs := fs1
      printed := p0 ++ ["❌ Failed to convert to PDF: " ++ e]
      pandocCalls := 1 }

/-! ### CLI surface (code.py lines 108-112) -/

/-- One `argparse` argument declaration. -/
structure ArgSpec where
  name : String
  positional : Bool
  takesMultiple : Bool
deriving DecidableEq, Repr

/-- The parser built at code.py lines 110-111: a single required
positional `target`, no option flags, no `nargs`. -/
def cli_args : List ArgSpec :=
  [{ name := "target", positional := true, takesMultiple := false }]

def cli_description : String := "Nuclei + Gemini Automated Scanner"

/-- Behaviour of `parser.parse_args()` for this declaration: exactly one
positional token parses; an empty command line is missing `target`; any
extra token is unrecognized (argparse errors out in both cases). -/
def parse_args : List String → Except String String
  | [t] => .ok t
  | [] => .error "the following arguments are required: target"
  | _ => .error "unrecognized arguments"

/-! ### The __main__ block (code.py lines 107-121) -/

/-- Outcome of one invocation of the script. -/
structure RunResult where
  exitCode : Nat
  fs : FS
  printed : List String
  geminiCalls : Nat
  scanAttempts : Nat
  pandocCalls : Nat

/-- Embedding of the `__main__` block (code.py lines 107-121):
`verify_setup`, then `run_nuclei_scan` on the single target, then
`generate_report_from_file`; if the resulting text contains `"Error"` it
is printed and the script falls off the end with exit status 0, else
`save_report_to_pdf` runs and the script again ends with status 0. The
`timestamp` parameter stands for `datetime.now()` in the scan file name;
`fs0` is the file system when the script starts. -/
def script_main (env : Env) (target timestamp : String) (fs0 : FS) : RunResult :=
  let su := verify_setup env
  match su.exitWith with
  | some c =>
    { exitCode := c, fs := fs0, printed := su.printed
      geminiCalls := 0, scanAttempts := 0, pandocCalls := 0 }
  | none =>
    let sc := run_nuclei_scan env target timestamp
    match sc.outputFile with
    | none =>
      { exitCode := 1, fs := fs0, printed := su.printed ++ sc.printed
        geminiCalls := 0, scanAttempts := sc.attempts, pandocCalls := 0 }
    | some scan_file =>
      let gr := generate_report_from_file env scan_file
      if pyIn "Error" gr.report then
        { exitCode := 0, fs := fs0
          printed := su.printed ++ sc.printed ++ gr.printed ++ [gr.report]
          geminiCalls := gr.geminiCalls, scanAttempts := sc.attempts, pandocCalls := 0 }
      else
        let sv := save_report_to_pdf env gr.report REPORT_PATH fs0
        { exitCode := 0, fs := sv.fs
          printed := su.printed ++ sc.printed ++ gr.printed ++ sv.printed
          geminiCalls := gr.geminiCalls, scanAttempts := sc.attempts
          pandocCalls := sv.pandocCalls }

/-! ### Derived success predicates -/

/-- The startup check passes: the `-version` subprocess succeeds and the
template directory exists. -/
def setupOkB (env : Env) : Bool :=
  isOkB (env.runSubprocess version_call) && env.templatesExist

/-- The scan subprocess for this target and timestamp exits zero. -/
def scanOkB (env : Env) (target timestamp : String) : Bool :=
  isOkB (env.runSubprocess (scan_call target (scan_output_file timestamp)))

/-- Summarization genuinely succeeds: the scan file is readable and the
Gemini call on its prompt returns normally. -/
def synthesisOkB (env : Env) (timestamp : String) : Bool :=
  match env.readFile (scan_output_file timestamp) with
  | .error _ => false
  | .ok content => isOkB (env.gemini (prompt_for content))

/-! ### Concrete environments used as witnesses and counterexamples -/

/-- Everything succeeds: both subprocesses exit zero, templates exist,
the scan file reads back, Gemini answers a fixed benign report. -/
def okEnv : Env :=
  { runSubprocess := fun _ => .ok ()
    templatesExist := true
    readFile := fun _ => .ok "scan data"
    gemini := fun _ => .ok "All clear."
    render := fun _ => "PDFBYTES" }

/-- Setup and scan succeed but the Gemini call raises. -/
def geminiFailEnv : Env :=
  { okEnv with gemini := fun _ => .error "quota exceeded" }

/-- The scan subprocess (recognised by its `-u` flag) exits non-zero;
everything else succeeds. -/
def scanFailEnv : Env :=
  { okEnv with
    runSubprocess := fun c => if c.argv.contains "-u" then .error "exit status 1" else .ok () }

/-- The pandoc subprocess (recognised by its leading `"pandoc"` argv
entry) raises `CalledProcessError`; everything else succeeds. -/
def pandocFailEnv : Env :=
  { okEnv with
    runSubprocess := fun c =>
      if c.argv.headI = "pandoc" then .error "exited with status 43" else .ok () }

/-- The template directory is missing. -/
def noTemplatesEnv : Env := { okEnv with templatesExist := false }

/-- The scan output file cannot be read back. -/
def readFailEnv : Env :=
  { okEnv with readFile := fun _ => .error "No such file or directory" }

/-- Gemini succeeds but its legitimate report mentions the word
`"Error"` in its body. -/
def benignErrorEnv : Env :=
  { okEnv with gemini := fun _ => .ok "No Error entries were found; the target looks clean." }

/-- The scan output file reads back empty: the scan produced no findings. -/
def emptyReadEnv : Env := { okEnv with readFile := fun _ => .ok "" }

/-! ### Helper lemmas -/

theorem isOkB_eq_true {α : Type} {r : Except String α} :
    isOkB r = true ↔ ∃ a, r = .ok a := by
  cases r <;> simp [isOkB]

theorem strContainsAux_of_isPrefixOf {needle hay : List Char}
    (h : needle.isPrefixOf hay = true) : strContainsAux needle hay = true := by
  cases hay with
  | nil => simpa [strContainsAux] using h
  | cons c cs => simp [strContainsAux, h]

theorem pyIn_of_pyStartsWith {s pre : String} (h : pyStartsWith s pre = true) :
    pyIn pre s = true :=
  strContainsAux_of_isPrefixOf h

theorem pyStartsWith_append {head pre : String} (tail : List Char)
    (h : head.data = pre.data ++ tail) (e : String) :
    pyStartsWith (head ++ e) pre = true := by
  unfold pyStartsWith
  rw [List.isPrefixOf_iff_prefix]
  show pre.data <+: (head ++ e).data
  rw [String.data_append, h, List.append_assoc]
  exact List.prefix_append _ _

theorem save_report_to_pdf_calls (env : Env) (md base_path : String) (fs0 : FS) :
    (save_report_to_pdf env md base_path fs0).pandocCalls = 1 := by
  rcases h : env.runSubprocess (pandoc_call (base_path ++ ".md") (base_path ++ ".pdf")) with e | u <;>
    simp [save_report_to_pdf, h]

/-! ### C2 — setup failure is fatal and happens before any scan -/

/-- C2: if the scanner binary cannot be executed (the `-version` probe
raises) or the template directory does not exist, the script exits with
the fatal status 1 during `verify_setup`, with zero scan attempts, zero
Gemini calls, zero pandoc calls, and the file system untouched. -/
theorem c2_setup_failure_fatal_before_scan (env : Env) (target timestamp : String) (fs0 : FS)
    (h : isOkB (env.runSubprocess version_call) = false ∨ env.templatesExist = false) :
    (script_main env target timestamp fs0).exitCode = 1 ∧
    (script_main env target timestamp fs0).scanAttempts = 0 ∧
    (script_main env target timestamp fs0).geminiCalls = 0 ∧
    (script_main env target timestamp fs0).pandocCalls = 0 ∧
    (script_main env target timestamp fs0).fs = fs0 := by
  rcases hv : env.runSubprocess version_call with e | u
  · simp [script_main, verify_setup, hv]
  · rcases h with h | h
    · rw [hv] at h
      simp [isOkB] at h
    · simp [script_main, verify_setup, hv, h]

/-- C2 witness: with the template directory missing, the run exits 1
before any scan job. -/
theorem c2_witness :
    (isOkB (noTemplatesEnv.runSubprocess version_call) = false ∨
      noTemplatesEnv.templatesExist = false) ∧
    ((script_main noTemplatesEnv "https://a.test" "20240101_000000" emptyFS).exitCode = 1 ∧
     (script_main noTemplatesEnv "https://a.test" "20240101_000000" emptyFS).scanAttempts = 0 ∧
     (script_main noTemplatesEnv "https://a.test" "20240101_000000" emptyFS).geminiCalls = 0 ∧
     (script_main noTemplatesEnv "https://a.test" "20240101_000000" emptyFS).pandocCalls = 0 ∧
     (script_main noTemplatesEnv "https://a.test" "20240101_000000" emptyFS).fs = emptyFS) :=
  ⟨Or.inr rfl,
   c2_setup_failure_fatal_before_scan noTemplatesEnv "https://a.test" "20240101_000000" emptyFS
     (Or.inr rfl)⟩

/-! ### C4 — renderer failure keeps the Markdown and is reported -/

/-- C4: for every report text, when the pandoc invocation raises
`CalledProcessError`, the Markdown file written beforehand is still on
disk with the full report as its contents, the failure message is
printed, and the (single) pandoc invocation is on record. -/
theorem c4_renderer_failure_keeps_markdown (env : Env) (md base_path : String) (fs0 : FS)
    (e : String)
    (h : env.runSubprocess (pandoc_call (base_path ++ ".md") (base_path ++ ".pdf")) = .error e) :
    (save_report_to_pdf env md base_path fs0).fs (base_path ++ ".md") = some md ∧
    ("❌ Failed to convert to PDF: " ++ e) ∈ (save_report_to_pdf env md base_path fs0).printed ∧
    (save_report_to_pdf env md base_path fs0).pandocCalls = 1 := by
  simp [save_report_to_pdf, h, FS.write]

/-- C4 witness: a concrete failing pandoc run keeps the Markdown report
and prints the conversion error. -/
theorem c4_witness :
    pandocFailEnv.runSubprocess (pandoc_call (REPORT_PATH ++ ".md") (REPORT_PATH ++ ".pdf")) =
      .error "exited with status 43" ∧
    ((save_report_to_pdf pandocFailEnv "# Report" REPORT_PATH emptyFS).fs
        (REPORT_PATH ++ ".md") = some "# Report" ∧
     ("❌ Failed to convert to PDF: " ++ "exited with status 43") ∈
        (save_report_to_pdf pandocFailEnv "# Report" REPORT_PATH emptyFS).printed ∧
     (save_report_to_pdf pandocFailEnv "# Report" REPORT_PATH emptyFS).pandocCalls = 1) :=
  ⟨rfl,
   c4_renderer_failure_keeps_markdown pandocFailEnv "# Report" REPORT_PATH emptyFS
     "exited with status 43" rfl⟩

/-! ### C6 — no wall-clock timeout on the scanner subprocess -/

/-- C6 counterexample: it is not true that every scan invocation carries
a wall-clock timeout — the `subprocess.run` call for the scan is built
with `timeout = none` (Python's default, wait forever), so no timeout is
enforced and nothing can kill a hung scanner. -/
theorem c6_counterexample :
    ¬ (∀ target output_file : String,
        ((scan_call target output_file).timeout).isSome = true) := by
  intro h
  have := h "https://a.test" (scan_output_file "20240101_000000")
  simp [scan_call] at this

/-- C6 amended: the scan runner invokes the external scanner with no
timeout at all; the `timeout` keyword of the `subprocess.run` call is
`none` for every target, so a hung scanner process is never killed. -/
theorem c6_scan_has_no_timeout (target output_file : String) :
    (scan_call target output_file).timeout = none ∧
    (scan_call target output_file).argv = scan_cmd target output_file ∧
    (scan_call target output_file).check = true :=
  ⟨rfl, rfl, rfl⟩

/-! ### C8 — the CLI takes exactly one target and no options -/

/-- C8 counterexample: the claim that the command line accepts one or
more target URIs and offers option flags fails — parsing two targets is
rejected by `argparse` as unrecognized arguments, and the parser
declares no non-positional argument. -/
theorem c8_counterexample :
    ¬ ((∀ t1 t2 : String, isOkB (parse_args [t1, t2]) = true) ∧
       ∃ a ∈ cli_args, a.positional = false) := by
  rintro ⟨h1, _⟩
  have := h1 "https://a.test" "https://b.test"
  simp [parse_args, isOkB] at this

/-- C8 amended: the CLI accepts exactly one positional target URI — a
command line parses successfully iff it has exactly one token — and
declares no option for concurrency, output directory, report path or
timeout: its single argument is positional and single-valued. -/
theorem c8_exactly_one_target_no_options :
    (∀ args : List String, isOkB (parse_args args) = true ↔ args.length = 1) ∧
    cli_args.all (fun a => a.positional && !a.takesMultiple) = true ∧
    cli_args.length = 1 := by
  refine ⟨?_, by decide, by decide⟩
  intro args
  match args with
  | [] => simp [parse_args, isOkB]
  | [t] => simp [parse_args, isOkB]
  | a :: b :: rest => simp [parse_args, isOkB]

/-! ### C3 — empty findings still go to the model -/

/-- C3 counterexample: the claim that an empty finding set yields a
canned summary with zero model calls fails — with the scan file reading
back empty, `generate_report_from_file` still calls
`model.generate_content` once. -/
theorem c3_counterexample :
    ¬ (∀ (env : Env) (file_path : String),
        env.readFile file_path = .ok "" →
        (generate_report_from_file env file_path).geminiCalls = 0) := by
  intro h
  have := h emptyReadEnv (scan_output_file "20240101_000000") rfl
  simp [generate_report_from_file, emptyReadEnv, okEnv] at this

/-- C3 amended: whenever the scan file read succeeds — whatever its
contents, the empty string included — the external model is called
exactly once on the prompt built from those contents; there is no canned
"no findings" branch. -/
theorem c3_model_called_even_on_empty (env : Env) (file_path content : String)
    (h : env.readFile file_path = .ok content) :
    (generate_report_from_file env file_path).geminiCalls = 1 := by
  rcases hg : env.gemini (prompt_for content) with e | text <;>
    simp [generate_report_from_file, h, hg]

/-- C3 witness: a concrete empty scan file still produces one Gemini
call. -/
theorem c3_witness :
    emptyReadEnv.readFile (scan_output_file "20240101_000000") = .ok "" ∧
    (generate_report_from_file emptyReadEnv (scan_output_file "20240101_000000")).geminiCalls = 1 :=
  ⟨rfl, c3_model_called_even_on_empty emptyReadEnv (scan_output_file "20240101_000000") "" rfl⟩

/-! ### C5 — no retries; a scan failure aborts the whole run -/

/-- C5 counterexample: the claim that a failing scan is retried (three
attempts in all, two retries) fails — on a concrete environment whose
scan subprocess always exits non-zero, the run makes exactly one scan
attempt, not three. -/
theorem c5_counterexample :
    ¬ (∀ (env : Env) (target timestamp : String) (fs0 : FS),
        setupOkB env = true → scanOkB env target timestamp = false →
        (script_main env target timestamp fs0).scanAttempts = 3) := by
  intro h
  have := h scanFailEnv "https://a.test" "20240101_000000" emptyFS (by decide) (by decide)
  have h1 : (script_main scanFailEnv "https://a.test" "20240101_000000" emptyFS).scanAttempts = 1 :=
    rfl
  rw [h1] at this
  exact absurd this (by decide)

/-- C5 amended: a failing scan is never retried — exactly one scan
attempt is made, and the failure aborts the entire run with exit status
1 before any summarization, instead of marking only that target failed
and carrying on. -/
theorem c5_scan_failure_aborts_run (env : Env) (target timestamp : String) (fs0 : FS)
    (hsetup : setupOkB env = true) (hscan : scanOkB env target timestamp = false) :
    (script_main env target timestamp fs0).scanAttempts = 1 ∧
    (script_main env target timestamp fs0).exitCode = 1 ∧
    (script_main env target timestamp fs0).geminiCalls = 0 ∧
    (script_main env target timestamp fs0).fs = fs0 := by
  rcases hv : env.runSubprocess version_call with e | u
  · rw [setupOkB, hv] at hsetup
    simp [isOkB] at hsetup
  · have ht : env.templatesExist = true := by
      rw [setupOkB, hv] at hsetup
      simpa [isOkB] using hsetup
    rcases hs : env.runSubprocess (scan_call target (scan_output_file timestamp)) with e | u
    · simp [script_main, verify_setup, run_nuclei_scan, hv, ht, hs]
    · rw [scanOkB, hs] at hscan
      simp [isOkB] at hscan

/-- C5 witness: the concrete always-failing scan environment makes one
attempt and aborts with status 1. -/
theorem c5_witness :
    setupOkB scanFailEnv = true ∧
    scanOkB scanFailEnv "https://a.test" "20240101_000000" = false ∧
    ((script_main scanFailEnv "https://a.test" "20240101_000000" emptyFS).scanAttempts = 1 ∧
     (script_main scanFailEnv "https://a.test" "20240101_000000" emptyFS).exitCode = 1 ∧
     (script_main scanFailEnv "https://a.test" "20240101_000000" emptyFS).geminiCalls = 0 ∧
     (script_main scanFailEnv "https://a.test" "20240101_000000" emptyFS).fs = emptyFS) :=
  ⟨by decide, by decide,
   c5_scan_failure_aborts_run scanFailEnv "https://a.test" "20240101_000000" emptyFS
     (by decide) (by decide)⟩

/-! ### C1 — exit status 0 does not mean everything succeeded -/

/-- C1 counterexample: the claim that the exit status is 0 only when
every target succeeded fails — when setup and scan succeed but the
Gemini call raises, the report string contains `"Error"`, the script
prints it and falls off the end with exit status 0 even though synthesis
failed. -/
theorem c1_counterexample :
    ¬ (∀ (env : Env) (target timestamp : String) (fs0 : FS),
        (script_main env target timestamp fs0).exitCode = 0 →
        setupOkB env = true ∧ scanOkB env target timestamp = true ∧
          synthesisOkB env timestamp = true) := by
  intro h
  have := h geminiFailEnv "https://a.test" "20240101_000000" emptyFS (by decide)
  exact absurd this.2.2 (by decide)

/-- C1 amended: the exit status is 0 exactly when setup and the scan
subprocess succeed — even if summarization failed (the error text is
printed instead of a report being saved) or the PDF rendering failed —
and it is 1 both when setup fails and when the scan fails; there is no
distinct partial-failure code and no distinct fatal code. -/
theorem c1_exit_code (env : Env) (target timestamp : String) (fs0 : FS) :
    (script_main env target timestamp fs0).exitCode =
      if setupOkB env && scanOkB env target timestamp then 0 else 1 := by
  rcases hv : env.runSubprocess version_call with e | u
  · simp [script_main, verify_setup, setupOkB, hv, isOkB]
  · rcases ht : env.templatesExist with _ | _
    · simp [script_main, verify_setup, setupOkB, hv, ht, isOkB]
    · rcases hs : env.runSubprocess (scan_call target (scan_output_file timestamp)) with e | u
      · simp [script_main, verify_setup, run_nuclei_scan, setupOkB, scanOkB, hv, ht, hs, isOkB]
      · by_cases hp :
          pyIn "Error" (generate_report_from_file env (scan_output_file timestamp)).report = true
        · simp [script_main, verify_setup, run_nuclei_scan, setupOkB, scanOkB, hv, ht, hs,
            isOkB, hp]
        · simp [script_main, verify_setup, run_nuclei_scan, setupOkB, scanOkB, hv, ht, hs,
            isOkB, hp]

/-! ### C7 — the Markdown is deleted when rendering succeeds -/

/-- C7 counterexample: the claim that after a fully successful run both
the Markdown report and the PDF remain on disk fails — on a concrete
all-success environment the Markdown file at the report path is absent
at the end of the run, because `os.remove(md_path)` deletes it right
after the pandoc conversion succeeds. -/
theorem c7_counterexample :
    ¬ (∀ (env : Env) (target timestamp : String) (fs0 : FS),
        setupOkB env = true → scanOkB env target timestamp = true →
        pyIn "Error" (generate_report_from_file env (scan_output_file timestamp)).report = false →
        isOkB (env.runSubprocess (pandoc_call (REPORT_PATH ++ ".md") (REPORT_PATH ++ ".pdf"))) =
          true →
        ((script_main env target timestamp fs0).fs (REPORT_PATH ++ ".md")).isSome = true ∧
        ((script_main env target timestamp fs0).fs (REPORT_PATH ++ ".pdf")).isSome = true) := by
  intro h
  have := h okEnv "https://a.test" "20240101_000000" emptyFS (by decide) (by decide)
    (by decide) (by decide)
  exact absurd this.1 (by decide)

/-- C7 amended: after `save_report_to_pdf`, the Markdown file exists at
the report path exactly when the pandoc conversion failed — on success
`os.remove` deletes it and only the rendered PDF is retained; on failure
only the Markdown is retained and the PDF slot is untouched. -/
theorem c7_markdown_removed_on_success (env : Env) (md base_path : String) (fs0 : FS) :
    (save_report_to_pdf env md base_path fs0).fs (base_path ++ ".md") =
      (if isOkB (env.runSubprocess (pandoc_call (base_path ++ ".md") (base_path ++ ".pdf")))
        then none else some md) ∧
    (save_report_to_pdf env md base_path fs0).fs (base_path ++ ".pdf") =
      (if isOkB (env.runSubprocess (pandoc_call (base_path ++ ".md") (base_path ++ ".pdf")))
        then some (env.render md) else fs0 (base_path ++ ".pdf")) := by
  have hne : base_path ++ ".pdf" ≠ base_path ++ ".md" := by
    intro hEq
    have hdata := congrArg String.data hEq
    rw [String.data_append, String.data_append, List.append_right_inj] at hdata
    exact absurd hdata (by decide)
  rcases hp : env.runSubprocess (pandoc_call (base_path ++ ".md") (base_path ++ ".pdf"))
      with e | u <;>
    simp [save_report_to_pdf, hp, isOkB, FS.write, FS.remove, hne]

/-! ### C9 — "Error" substring sniffing decides the report's fate -/

/-- C9: once setup and the scan succeed, the script treats the generated
report as failed exactly when its text contains the substring `"Error"`:
pandoc is invoked iff the substring is absent, and when it is present
the report is printed, nothing is written, and no conversion happens —
so a legitimate report mentioning "Error" takes the failure path too. -/
theorem c9_error_substring_routing (env : Env) (target timestamp : String) (fs0 : FS)
    (hsetup : setupOkB env = true) (hscan : scanOkB env target timestamp = true) :
    ((script_main env target timestamp fs0).pandocCalls =
      if pyIn "Error" (generate_report_from_file env (scan_output_file timestamp)).report
        then 0 else 1) ∧
    (pyIn "Error" (generate_report_from_file env (scan_output_file timestamp)).report = true →
      (script_main env target timestamp fs0).fs = fs0 ∧
      (generate_report_from_file env (scan_output_file timestamp)).report ∈
        (script_main env target timestamp fs0).printed) := by
  have hv' : isOkB (env.runSubprocess version_call) = true ∧ env.templatesExist = true := by
    simpa [setupOkB, Bool.and_eq_true] using hsetup
  obtain ⟨u, hv⟩ := isOkB_eq_true.mp hv'.1
  have ht := hv'.2
  obtain ⟨w, hs⟩ := isOkB_eq_true.mp (by simpa [scanOkB] using hscan)
  cases u; cases w
  by_cases hp :
      pyIn "Error" (generate_report_from_file env (scan_output_file timestamp)).report = true
  · simp [script_main, verify_setup, run_nuclei_scan, hv, ht, hs, hp]
  · simp only [Bool.not_eq_true] at hp
    simp [script_main, verify_setup, run_nuclei_scan, hv, ht, hs, hp,
      save_report_to_pdf_calls]

/-- C9 witness: a benign report whose body merely mentions "Error" is
routed to the failure path — printed, never converted. -/
theorem c9_witness :
    setupOkB benignErrorEnv = true ∧
    scanOkB benignErrorEnv "https://a.test" "20240101_000000" = true ∧
    (((script_main benignErrorEnv "https://a.test" "20240101_000000" emptyFS).pandocCalls =
        if pyIn "Error"
            (generate_report_from_file benignErrorEnv (scan_output_file "20240101_000000")).report
          then 0 else 1) ∧
     (pyIn "Error"
          (generate_report_from_file benignErrorEnv (scan_output_file "20240101_000000")).report =
            true →
       (script_main benignErrorEnv "https://a.test" "20240101_000000" emptyFS).fs = emptyFS ∧
       (generate_report_from_file benignErrorEnv (scan_output_file "20240101_000000")).report ∈
         (script_main benignErrorEnv "https://a.test" "20240101_000000" emptyFS).printed)) :=
  ⟨by decide, by decide,
   c9_error_substring_routing benignErrorEnv "https://a.test" "20240101_000000" emptyFS
     (by decide) (by decide)⟩

/-! ### C10 — read and Gemini failures become "Error" strings, never exceptions -/

/-- C10: `generate_report_from_file` catches a failed file read and a
failed Gemini call and returns a string beginning with `"Error"` (it is
total — the caller always receives a string); in the full run such a
report is routed to the print branch: pandoc is never invoked, the text
appears in the printed output, and the file system is untouched. -/
theorem c10_failures_become_error_strings (env : Env) (target timestamp : String) (fs0 : FS)
    (hsetup : setupOkB env = true) (hscan : scanOkB env target timestamp = true)
    (hfail : (∃ e, env.readFile (scan_output_file timestamp) = .error e) ∨
             (∃ c e, env.readFile (scan_output_file timestamp) = .ok c ∧
                env.gemini (prompt_for c) = .error e)) :
    pyStartsWith (generate_report_from_file env (scan_output_file timestamp)).report "Error" =
      true ∧
    (script_main env target timestamp fs0).pandocCalls = 0 ∧
    (generate_report_from_file env (scan_output_file timestamp)).report ∈
      (script_main env target timestamp fs0).printed ∧
    (script_main env target timestamp fs0).fs = fs0 := by
  have hstart :
      pyStartsWith (generate_report_from_file env (scan_output_file timestamp)).report "Error" =
        true := by
    rcases hfail with ⟨e, he⟩ | ⟨c, e, hc, hg⟩
    · have hr : (generate_report_from_file env (scan_output_file timestamp)).report =
          "Error reading file: " ++ e := by
        simp [generate_report_from_file, he]
      rw [hr]
      exact pyStartsWith_append (" reading file: ".data) (by decide) e
    · have hr : (generate_report_from_file env (scan_output_file timestamp)).report =
          "Error communicating with Gemini: " ++ e := by
        simp [generate_report_from_file, hc, hg]
      rw [hr]
      exact pyStartsWith_append (" communicating with Gemini: ".data) (by decide) e
  have hp : pyIn "Error" (generate_report_from_file env (scan_output_file timestamp)).report =
      true := pyIn_of_pyStartsWith hstart
  have hv' : isOkB (env.runSubprocess version_call) = true ∧ env.templatesExist = true := by
    simpa [setupOkB, Bool.and_eq_true] using hsetup
  obtain ⟨u, hv⟩ := isOkB_eq_true.mp hv'.1
  have ht := hv'.2
  obtain ⟨w, hs⟩ := isOkB_eq_true.mp (by simpa [scanOkB] using hscan)
  cases u; cases w
  refine ⟨hstart, ?_, ?_, ?_⟩ <;>
    simp [script_main, verify_setup, run_nuclei_scan, hv, ht, hs, hp]

/-- C10 witness: a concrete unreadable scan file yields an
`"Error reading file: ..."` report that is printed, with no pandoc call
and no file written. -/
theorem c10_witness :
    setupOkB readFailEnv = true ∧
    scanOkB readFailEnv "https://a.test" "20240101_000000" = true ∧
    (∃ e, readFailEnv.readFile (scan_output_file "20240101_000000") = .error e) ∧
    (pyStartsWith
        (generate_report_from_file readFailEnv (scan_output_file "20240101_000000")).report
        "Error" = true ∧
     (script_main readFailEnv "https://a.test" "20240101_000000" emptyFS).pandocCalls = 0 ∧
     (generate_report_from_file readFailEnv (scan_output_file "20240101_000000")).report ∈
       (script_main readFailEnv "https://a.test" "20240101_000000" emptyFS).printed ∧
     (script_main readFailEnv "https://a.test" "20240101_000000" emptyFS).fs = emptyFS) :=
  ⟨by decide, by decide, ⟨"No such file or directory", rfl⟩,
   c10_failures_become_error_strings readFailEnv "https://a.test" "20240101_000000" emptyFS
     (by decide) (by decide) (Or.inl ⟨"No such file or directory", rfl⟩)⟩

end NucloGem
